import Mathlib

/-!
Shallow embedding of `elasticsearch_v7.go` from
sfomuseum/go-libraryofcongress-database-elasticsearch.

The Go file defines `ElasticsearchV7Database` together with its
constructor `NewElasticsearchV7Database`, the bulk-ingestion entry points
`Index` / `indexSource`, and the search entry point `Query`.  Pure data
construction (configuration parsing, document building, request shaping,
response normalization) is embedded as executable Lean functions; the
outcomes of the external collaborators (the elasticsearch client library,
the bulk indexer, the source iterator) are passed in as explicit
parameters.
-/

/-! ### Models of Go standard-library primitives used by the source -/

/-- Decimal digit string value: `some n` when the list is non-empty and
all characters are ASCII digits, `none` otherwise.  Helper for `goAtoi`. -/
def digitsVal (cs : List Char) : Option Nat :=
  if cs = [] then none
  else cs.foldl
    (fun acc c =>
      acc.bind (fun n => if c.isDigit then some (n * 10 + (c.toNat - 48)) else none))
    (some 0)

/-- Model of Go `strconv.Atoi` (= `ParseInt` base 10, 64-bit int): an
optional sign followed by at least one decimal digit, rejecting values
outside the `int64` range.  `none` models a non-nil error (the caller in
the source only distinguishes nil from non-nil). -/
def goAtoi (s : String) : Option Int :=
  match s.toList with
  | '+' :: rest => (digitsVal rest).bind
      (fun n => if n ≤ 2 ^ 63 - 1 then some (n : Int) else none)
  | '-' :: rest => (digitsVal rest).bind
      (fun n => if n ≤ 2 ^ 63 then some (-(n : Int)) else none)
  | cs => (digitsVal cs).bind
      (fun n => if n ≤ 2 ^ 63 - 1 then some (n : Int) else none)

/-- Model of Go `strconv.ParseBool`: exactly the listed spellings parse;
anything else is an error (`none`). -/
def goParseBool (s : String) : Option Bool :=
  if s ∈ (["1", "t", "T", "TRUE", "true", "True"] : List String) then some true
  else if s ∈ (["0", "f", "F", "FALSE", "false", "False"] : List String) then some false
  else none

/-- A Go `url.Values` query-parameter map, modelled as the list of
key/value pairs of the connection URI's query string. -/
abbrev Params := List (String × String)

/-- Model of Go `url.Values.Get`: the first value associated with the
key, or the empty string when the key is absent.  (Also reused for Go
`map[string]string` indexing, which likewise yields `""` for a missing
key.) -/
def getParam (q : Params) (k : String) : String :=
  match q.find? (fun p => p.1 = k) with
  | some p => p.2
  | none => ""

/-! ### The connection handle and its constructor -/

/-- Destination of the handle's diagnostic logger: the source assigns
either `log.New(io.Discard, "", 0)` or `log.New(os.Stdout, "", 0)`. -/
inductive LogDest where
  | discard
  | stdout
deriving DecidableEq, Repr

/-- The `es.Config` fields the source populates (addresses, retry
statuses, retry cap, and whether the verbose `estransport.TextLogger`
request/response logger is attached).  The constructed client is
determined by this configuration, so the handle's `client` field is
modelled by it. -/
structure ESConfig where
  addresses : List String
  retryOnStatus : List Nat
  maxRetries : Nat
  verboseLogger : Bool
deriving DecidableEq, Repr

/-- The `ElasticsearchV7Database` struct of the source. -/
structure ElasticsearchV7Database where
  client : ESConfig
  index : String
  logger : LogDest
  workers : Int
  query_by : String
deriving DecidableEq, Repr

/-- Outcomes of the two external calls the constructor makes
(`es.NewClient` and `es_client.Indices.Create`); `some e` models a
non-nil error with message `e`. -/
structure ExtEnv where
  newClientErr : Option String := none
  createIndexErr : Option String := none
deriving DecidableEq, Repr

/-- The `str_workers` block of `NewElasticsearchV7Database`
(src/elasticsearch_v7.go lines 51–76): default 10, otherwise
`strconv.Atoi` with a parse failure escalated. -/
def parseWorkers (s : String) : Except String Int :=
  if s = "" then Except.ok 10
  else
    match goAtoi s with
    | some w => Except.ok w
    | none => Except.error "Failed to parse workers"

/-- The `q_debug` block (lines 53, 78–88): default `(false, discard)`;
when the parameter is non-empty and parses, the parsed value is adopted
and the logger is redirected to stdout (note: the source redirects the
logger inside the parse-success branch, regardless of the parsed value). -/
def parseDebug (s : String) : Except String (Bool × LogDest) :=
  if s = "" then Except.ok (false, LogDest.discard)
  else
    match goParseBool s with
    | some v => Except.ok (v, LogDest.stdout)
    | none => Except.error "Failed to parse ?debug= parameter"

/-- The `q_create_index` block (lines 56, 90–99). -/
def parseCreateIndex (s : String) : Except String Bool :=
  if s = "" then Except.ok false
  else
    match goParseBool s with
    | some v => Except.ok v
    | none => Except.error "Failed to parse ?create-index= parameter"

/-- The `q_query_by` block (lines 54, 101–111): default `"label"`; a
non-empty value must be `"text"` or `"label"`, anything else is a
configuration error. -/
def parseQueryBy (s : String) : Except String String :=
  if s = "" then Except.ok "label"
  else if s = "text" ∨ s = "label" then Except.ok s
  else Except.error "Invalid ?search-by= parameter"

/-- Embedding of `NewElasticsearchV7Database` (src/elasticsearch_v7.go
lines 41–164).  The connection URI is represented by its parsed query
parameters `q`; the outcomes of the external client-creation and
index-creation calls are supplied by `env`.  The option blocks run in
source order (workers, debug, create-index, query-by), then the
`es.Config` is built with `RetryOnStatus = [502, 503, 504, 429]` and
`MaxRetries = 5`, the client is created, the index optionally created,
and the handle returned. -/
def NewElasticsearchV7Database (env : ExtEnv) (q : Params) :
    Except String ElasticsearchV7Database :=
  match parseWorkers (getParam q "workers") with
  | Except.error e => Except.error e
  | Except.ok workers =>
    match parseDebug (getParam q "debug") with
    | Except.error e => Except.error e
    | Except.ok (debug, logger) =>
      match parseCreateIndex (getParam q "create-index") with
      | Except.error e => Except.error e
      | Except.ok create_index =>
        match parseQueryBy (getParam q "query-by") with
        | Except.error e => Except.error e
        | Except.ok query_by =>
          let es_cfg : ESConfig :=
            { addresses := [getParam q "endpoint"]
              retryOnStatus := [502, 503, 504, 429]
              maxRetries := 5
              verboseLogger := debug }
          match env.newClientErr with
          | some e => Except.error ("Failed to create ES client, " ++ e)
          | none =>
            if create_index ∧ (env.createIndexErr).isSome then
              Except.error ("Failed to create index, " ++ (env.createIndexErr).getD "")
            else
              Except.ok
                { client := es_cfg
                  index := getParam q "index"
                  logger := logger
                  workers := workers
                  query_by := query_by }

/-! ### Retry/backoff policy -/

/-- State of the external `backoff.ExponentialBackOff` value the
constructor creates: intervals in nanoseconds.  The library's documented
behavior (deterministic core, randomization omitted): `NextBackOff`
returns the current interval and multiplies it by the multiplier 1.5
(here `* 3 / 2` on naturals), capped at `maxInterval`; `Reset` restores
the initial interval. -/
structure ExponentialBackOff where
  initialInterval : Nat
  maxInterval : Nat
  currentInterval : Nat
deriving DecidableEq, Repr

/-- Model of `backoff.ExponentialBackOff.Reset`. -/
def ExponentialBackOff.reset (b : ExponentialBackOff) : ExponentialBackOff :=
  { b with currentInterval := b.initialInterval }

/-- Model of `backoff.ExponentialBackOff.NextBackOff`: the returned
delay and the advanced state. -/
def ExponentialBackOff.nextBackOff (b : ExponentialBackOff) : Nat × ExponentialBackOff :=
  (b.currentInterval,
   { b with currentInterval := min (b.currentInterval * 3 / 2) b.maxInterval })

/-- Embedding of the `RetryBackoff` closure installed in `es.Config`
(src/elasticsearch_v7.go lines 121–126): on attempt counter `i = 1` the
shared backoff state is reset, then the next backoff delay is taken. -/
def retryBackoff (b : ExponentialBackOff) (i : Nat) : Nat × ExponentialBackOff :=
  let b := if i = 1 then b.reset else b
  b.nextBackOff

/-! ### Bulk ingestion: documents, bulk items, per-row callback -/

/-- A source row: a `map[string]string`, modelled as its key/value
pairs; lookup is `getParam` (first match, `""` when absent). -/
abbrev Row := List (String × String)

/-- One hexadecimal digit, lower case (as produced by Go's JSON
encoder's `\u00xx` escapes). -/
def hexDigit (n : Nat) : String :=
  String.singleton (if n < 10 then Char.ofNat (48 + n) else Char.ofNat (87 + n))

/-- Escaping of one character as performed by Go `encoding/json` on
string values: quote, backslash, the HTML-unsafe characters, control
characters, and the line separators U+2028/U+2029. -/
def jsonEscapeChar (c : Char) : String :=
  if c = '"' then "\\\""
  else if c = '\\' then "\\\\"
  else if c = '\n' then "\\n"
  else if c = '\r' then "\\r"
  else if c = '\t' then "\\t"
  else if c = '<' then "\\u003c"
  else if c = '>' then "\\u003e"
  else if c = '&' then "\\u0026"
  else if c.toNat < 32 then "\\u00" ++ hexDigit (c.toNat / 16) ++ hexDigit (c.toNat % 16)
  else if c.toNat = 8232 then "\\u2028"
  else if c.toNat = 8233 then "\\u2029"
  else String.singleton c

/-- Go `encoding/json` string encoding. -/
def jsonString (s : String) : String :=
  "\"" ++ String.join (s.toList.map jsonEscapeChar) ++ "\""

/-- Model of Go `json.Marshal` on a `map[string]string` whose keys are
already in sorted order (the encoder sorts map keys; the document built
by the source lists `id`, `label`, `source`, which are sorted).  For
this type `json.Marshal` cannot fail, so the model is total. -/
def jsonObject (fields : List (String × String)) : String :=
  "\x7b" ++
    String.intercalate ","
      (fields.map (fun p => jsonString p.1 ++ ":" ++ jsonString p.2)) ++
  "\x7d"

/-- The document built for one row in `indexSource`
(src/elasticsearch_v7.go lines 285–289): exactly the fields `id`,
`label` (from the row) and `source` (the source record's label). -/
def docForRow (srcLabel : String) (row : Row) : List (String × String) :=
  [("id", getParam row "id"), ("label", getParam row "label"), ("source", srcLabel)]

/-- The fields of the `esutil.BulkIndexerItem` the source constructs:
action, document key, serialized body. -/
structure BulkIndexerItem where
  action : String
  documentID : String
  body : String
deriving DecidableEq, Repr

/-- Embedding of the bulk item construction in `indexSource`
(src/elasticsearch_v7.go lines 291–318): `Action = "index"`,
`DocumentID = row["id"]`, `Body` the JSON-marshalled document. -/
def bulkItemForRow (srcLabel : String) (row : Row) : BulkIndexerItem :=
  { action := "index"
    documentID := getParam row "id"
    body := jsonObject (docForRow srcLabel row) }

/-- The log line produced by the item's `OnFailure` handler
(src/elasticsearch_v7.go lines 311–317): the transport error when one is
present, otherwise the backend-reported error type and reason; in both
cases the document identifier is included.  The handler returns nothing,
so a per-document failure cannot surface an error. -/
def onFailureLog (doc_id : String) (err : Option String)
    (errType errReason : String) : String :=
  match err with
  | some e => "ERROR: Failed to index " ++ doc_id ++ ", " ++ e
  | none => "ERROR: Failed to index " ++ doc_id ++ ", " ++ errType ++ ": " ++ errReason

/-- Result of one invocation of the row callback `cb` in `indexSource`:
the log lines it writes, the error it returns (`none` = Go `nil`), the
bulk item handed to `indexer.Add`, and whether the item was accepted by
the queue. -/
structure CbOutcome where
  logs : List String
  result : Option String
  submitted : BulkIndexerItem
  scheduled : Bool
deriving DecidableEq, Repr

/-- Embedding of the row callback `cb` in `indexSource`
(src/elasticsearch_v7.go lines 283–329).  `addErr` is the outcome of the
external `indexer.Add` call: on `some e` the scheduling failure is
logged and the callback returns `nil`; on `none` the monitor is signalled
and the callback returns `nil`.  (`json.Marshal` on this document type
cannot fail, so the marshal-error branch is unreachable.) -/
def indexSourceRowCb (srcLabel : String) (addErr : Option String) (row : Row) :
    CbOutcome :=
  let doc_id := getParam row "id"
  let bulk_item := bulkItemForRow srcLabel row
  match addErr with
  | some e =>
    { logs := ["Failed to schedule " ++ doc_id ++ ", " ++ e]
      result := none
      submitted := bulk_item
      scheduled := false }
  | none =>
    { logs := []
      result := none
      submitted := bulk_item
      scheduled := true }

/-- First source whose `src.Index` callback-driving returned a non-nil
error, with its label, scanning in order (the loop in `Index` returns on
the first failing source). -/
def firstSourceErr : List (String × Option String) → Option (String × String)
  | [] => none
  | (lbl, some e) :: _ => some (lbl, e)
  | (_, none) :: rest => firstSourceErr rest

/-- Embedding of `Index` (src/elasticsearch_v7.go lines 238–279) as a
function of the external outcomes: `createErr` from
`esutil.NewBulkIndexer`, `sources` the per-source labels and `src.Index`
results, `docFailureLogs` the log lines emitted asynchronously by the
per-document failure handlers, `closeErr` from `indexer.Close`, and
`stats` the rendering of `indexer.Stats()`.  Returns the logger output
and the call's error (`none` = Go `nil`).  The stats line is printed
only after a successful close, per the source's control flow. -/
def indexCall (createErr : Option String) (sources : List (String × Option String))
    (docFailureLogs : List String) (closeErr : Option String) (stats : String) :
    List String × Option String :=
  match createErr with
  | some e => ([], some ("Failed to create bulk indexer, " ++ e))
  | none =>
    match firstSourceErr sources with
    | some le => (docFailureLogs, some ("Failed to index " ++ le.1 ++ ", " ++ le.2))
    | none =>
      match closeErr with
      | some e => (docFailureLogs, some ("Failed to close indexer, " ++ e))
      | none => (docFailureLogs ++ ["Stats " ++ stats], none)

/-! ### Query translation and response normalization -/

/-- The fixed part of the `text`-mode request body before the
interpolated query string (`fmt.Sprintf` at src/elasticsearch_v7.go
line 340). -/
def textQueryPre : String :=
  "\x7b\"query\": \x7b \"match_phrase\": \x7b \"search\": \""

/-- The fixed part of the default (`label`) request body before the
interpolated query string (line 342). -/
def labelQueryPre : String :=
  "\x7b\"query\": \x7b \"match_phrase\": \x7b \"label.keyword\": \""

/-- The fixed part of the request body after the interpolated query
string (both modes). -/
def querySuf : String := "\" \x7d \x7d \x7d"

/-- Embedding of the request-body construction in `Query`
(src/elasticsearch_v7.go lines 338–343): a `match_phrase` on the
full-text `search` field in `text` mode, and a `match_phrase` on the
untokenized `label.keyword` field in every other case; the query string
is interpolated verbatim (Go `fmt.Sprintf` with `%s`). -/
def queryBody (query_by q : String) : String :=
  if query_by = "text" then textQueryPre ++ q ++ querySuf
  else labelQueryPre ++ q ++ querySuf

/-- The fields of the `esapi.SearchRequest` that `Query` populates.
`fromOff` models the optional `From` pointer (absent when the page is
not greater than 1). -/
structure SearchRequest where
  index : List String
  body : String
  size : Int
  fromOff : Option Int
deriving DecidableEq, Repr

/-- Two's-complement reduction of an integer to 64 bits: the result of
a Go `int` arithmetic operation on a 64-bit platform, which wraps
around instead of growing unboundedly. -/
def wrap64 (n : Int) : Int :=
  (n + 2 ^ 63) % 2 ^ 64 - 2 ^ 63

/-- Embedding of the request shaping in `Query` (src/elasticsearch_v7.go
lines 345–364).  The page options are represented by their two
observables, `perPage` (`pg_opts.PerPage()`) and `page`
(`countable.PageFromOptions(pg_opts)`): `Size` is the page size taken
verbatim, and `From` is set to `(page - 1) * size` exactly when
`page > 1`, with both the subtraction and the multiplication performed
in Go's wrapping 64-bit `int` arithmetic (`wrap64`). -/
def buildSearchRequest (db : ElasticsearchV7Database) (q : String)
    (perPage page : Int) : SearchRequest :=
  let body := queryBody db.query_by q
  let size := perPage
  let base : SearchRequest :=
    { index := [db.index], body := body, size := size, fromOff := none }
  if page > 1 then { base with fromOff := some (wrap64 (wrap64 (page - 1) * size)) }
  else base

/-- Sample connection handle used by the query counterexample and
witnesses, in the given query-field mode. -/
def sampleDb (mode : String) : ElasticsearchV7Database :=
  { client :=
      { addresses := ["http://localhost:9200"]
        retryOnStatus := [502, 503, 504, 429]
        maxRetries := 5
        verboseLogger := false }
    index := "libraryofcongress"
    logger := LogDest.discard
    workers := 10
    query_by := mode }

/-- Modelled from the spec: one decoded hit of the backend response
(the `QueryResponse` type is declared in a repository file not present
under src/); a hit bears "enough fields to reconstruct one generic
result", accessed in the source as `r.Result`.  `α` stands for the
generic result type (`database.QueryResult`). -/
structure Hit (α : Type) where
  result : α
deriving DecidableEq, Repr

/-- Modelled from the spec: the decoded backend response — "a
total-count field, and a list of hits", accessed in the source as
`query_rsp.Hits.Total.Value` and `query_rsp.Hits.Results`. -/
structure QueryResponse (α : Type) where
  totalValue : Int
  hitResults : List (Hit α)
deriving DecidableEq, Repr

/-- Embedding of the response-normalization tail of `Query`
(src/elasticsearch_v7.go lines 387–404): one generic result per decoded
hit, in response order (`results[idx] = r.Result`), and the pagination
metadata built by handing the original page options together with the
response's total-count value to the external
`countable.NewResultsFromCountWithOptions`.  The pagination arguments
are returned as data since that constructor is an external collaborator. -/
def queryNormalize {α : Type} (perPage page : Int) (rsp : QueryResponse α) :
    List α × ((Int × Int) × Int) :=
  (rsp.hitResults.map (fun r => r.result), ((perPage, page), rsp.totalValue))

/-! ### Helper lemmas about the constructor -/

/-- Inversion for a successful construction: every option block must
have succeeded, and the handle's fields record their results together
with the fixed retry configuration. -/
theorem newDb_ok_inv (env : ExtEnv) (q : Params) (db : ElasticsearchV7Database)
    (h : NewElasticsearchV7Database env q = Except.ok db) :
    parseWorkers (getParam q "workers") = Except.ok db.workers ∧
    parseDebug (getParam q "debug") = Except.ok (db.client.verboseLogger, db.logger) ∧
    parseQueryBy (getParam q "query-by") = Except.ok db.query_by ∧
    db.client.retryOnStatus = [502, 503, 504, 429] ∧
    db.client.maxRetries = 5 ∧
    db.index = getParam q "index" ∧
    db.client.addresses = [getParam q "endpoint"] := by
  unfold NewElasticsearchV7Database at h
  repeat' split at h
  all_goals simp_all
  all_goals subst h
  all_goals simp_all

/-- A successful `parseQueryBy` yields the supplied value, defaulting to
`"label"` when the parameter is empty. -/
theorem parseQueryBy_ok {s v : String} (h : parseQueryBy s = Except.ok v) :
    v = if s = "" then "label" else s := by
  unfold parseQueryBy at h
  repeat' split at h
  all_goals simp_all

/-- A non-empty `query-by` value outside the closed enumeration is a
configuration error. -/
theorem parseQueryBy_invalid {s : String} (h1 : s ≠ "") (h2 : s ≠ "text")
    (h3 : s ≠ "label") : parseQueryBy s = Except.error "Invalid ?search-by= parameter" := by
  simp [parseQueryBy, h1, h2, h3]

/-! ### C1 -/

/-- C1: every accepted connection descriptor yields a handle whose
query-field mode is the supplied `query-by` value, defaulting to
`"label"` when the parameter is omitted; and any descriptor supplying a
`query-by` value outside the enumeration `text` / `label` fails
construction with a configuration error, so no handle is returned. -/
theorem c1_query_by_mode (env : ExtEnv) (q : Params) :
    (∀ db, NewElasticsearchV7Database env q = Except.ok db →
      db.query_by =
        (if getParam q "query-by" = "" then "label" else getParam q "query-by")) ∧
    (getParam q "query-by" ≠ "" → getParam q "query-by" ≠ "text" →
      getParam q "query-by" ≠ "label" →
      ∃ e, NewElasticsearchV7Database env q = Except.error e) := by
  constructor
  · intro db hdb
    exact parseQueryBy_ok (newDb_ok_inv env q db hdb).2.2.1
  · intro h1 h2 h3
    cases hres : NewElasticsearchV7Database env q with
    | ok db =>
      have hq := (newDb_ok_inv env q db hres).2.2.1
      rw [parseQueryBy_invalid h1 h2 h3] at hq
      exact absurd hq (by simp)
    | error e => exact ⟨e, rfl⟩

/-- Witness for C1: with `query-by=text` supplied the handle's mode is
`text`; with an omitted parameter it is `label`; and `query-by=zzz`
fails construction. -/
theorem c1_query_by_mode_witness :
    (∃ db, NewElasticsearchV7Database {} [("query-by", "text")] = Except.ok db ∧
      db.query_by = "text") ∧
    (∃ db, NewElasticsearchV7Database {} [] = Except.ok db ∧ db.query_by = "label") ∧
    (∃ e, NewElasticsearchV7Database {} [("query-by", "zzz")] = Except.error e) := by
  refine ⟨⟨_, rfl, ?_⟩, ⟨_, rfl, ?_⟩, ?_⟩
  · exact (c1_query_by_mode {} [("query-by", "text")]).1 _ rfl
  · exact (c1_query_by_mode {} []).1 _ rfl
  · exact (c1_query_by_mode {} [("query-by", "zzz")]).2 (by decide) (by decide) (by decide)

/-! ### C2 -/

/-- A successful debug block: the logger is redirected to stdout exactly
when the parameter was supplied (regardless of its parsed value), and
the debug flag is true exactly when the parameter parsed to true. -/
theorem parseDebug_ok {s : String} {d : Bool} {l : LogDest}
    (h : parseDebug s = Except.ok (d, l)) :
    (l = LogDest.stdout ↔ s ≠ "") ∧ (d = true ↔ goParseBool s = some true) := by
  unfold parseDebug at h
  split at h
  next hs =>
    rw [Except.ok.injEq, Prod.mk.injEq] at h
    obtain ⟨hd, hl⟩ := h
    subst hs; subst hd; subst hl
    decide
  next hs =>
    split at h
    next v hv =>
      rw [Except.ok.injEq, Prod.mk.injEq] at h
      obtain ⟨hd, hl⟩ := h
      subst hd; subst hl
      constructor
      · simp [hs]
      · rw [hv]
        simp
    next => simp at h

/-- C2 counterexample: the descriptor supplying `debug=false` is
accepted, `false` parses to the boolean false, yet the constructed
handle's diagnostic logger writes to stdout (the source redirects the
logger whenever the parameter parses, not only when it is true); the
verbose client logger is correctly absent. -/
theorem c2_debug_logger_counterexample :
    ∃ db, NewElasticsearchV7Database {} [("debug", "false")] = Except.ok db ∧
      goParseBool "false" = some false ∧
      db.logger = LogDest.stdout ∧ db.client.verboseLogger = false :=
  ⟨_, rfl, rfl, rfl, rfl⟩

/-- C2 (amended): for every accepted descriptor, the handle's diagnostic
logger is silent exactly when the `debug` parameter is omitted and
writes to stdout whenever it is supplied (whatever boolean it parses
to), while the verbose request/response logger is attached to the client
exactly when the supplied value parses to true. -/
theorem c2_debug_logger (env : ExtEnv) (q : Params) (db : ElasticsearchV7Database)
    (h : NewElasticsearchV7Database env q = Except.ok db) :
    (db.logger = LogDest.stdout ↔ getParam q "debug" ≠ "") ∧
    (db.client.verboseLogger = true ↔ goParseBool (getParam q "debug") = some true) :=
  parseDebug_ok (newDb_ok_inv env q db h).2.1

/-- Witness for C2 (amended) at `debug=true` and at an omitted
parameter. -/
theorem c2_debug_logger_witness :
    (∃ db, NewElasticsearchV7Database {} [("debug", "true")] = Except.ok db ∧
      ((db.logger = LogDest.stdout ↔ getParam [("debug", "true")] "debug" ≠ "") ∧
       (db.client.verboseLogger = true ↔
         goParseBool (getParam [("debug", "true")] "debug") = some true))) ∧
    (∃ db, NewElasticsearchV7Database {} [] = Except.ok db ∧
      db.logger = LogDest.discard) := by
  constructor
  · exact ⟨_, rfl, c2_debug_logger {} [("debug", "true")] _ rfl⟩
  · exact ⟨_, rfl, rfl⟩

/-! ### C3 -/

/-- A successful workers block: 10 when the parameter is omitted,
otherwise whatever integer `strconv.Atoi` produced. -/
theorem parseWorkers_ok {s : String} {w : Int} (h : parseWorkers s = Except.ok w) :
    (s = "" → w = 10) ∧ (∀ v, goAtoi s = some v → w = v) := by
  unfold parseWorkers at h
  split at h
  next hs =>
    rw [Except.ok.injEq] at h
    subst hs
    refine ⟨fun _ => h.symm, fun v hv => ?_⟩
    rw [show goAtoi "" = none from rfl] at hv
    cases hv
  next hs =>
    split at h
    next v hv =>
      rw [Except.ok.injEq] at h
      refine ⟨fun hc => absurd hc hs, fun v2 hv2 => ?_⟩
      rw [hv] at hv2
      have hvv := Option.some.inj hv2
      omega
    next => simp at h

/-- A supplied non-numeric workers value is a configuration error. -/
theorem parseWorkers_err {s : String} (h1 : s ≠ "") (h2 : goAtoi s = none) :
    parseWorkers s = Except.error "Failed to parse workers" := by
  simp [parseWorkers, h1, h2]

/-- C3 counterexample: the descriptor supplying `workers=-3` is accepted
and the returned handle's worker concurrency is -3 — not a positive
integer (the source parses but never validates sign or zero). -/
theorem c3_workers_counterexample :
    ∃ db, NewElasticsearchV7Database {} [("workers", "-3")] = Except.ok db ∧
      db.workers = -3 ∧ ¬ 0 < db.workers :=
  ⟨_, rfl, rfl, by decide⟩

/-- C3 (amended): worker concurrency defaults to 10 when the `workers`
parameter is omitted; a supplied non-numeric value fails construction
with a configuration error; and a supplied numeric value — positive or
not — becomes the handle's worker concurrency verbatim. -/
theorem c3_workers (env : ExtEnv) (q : Params) :
    (∀ db, NewElasticsearchV7Database env q = Except.ok db →
      (getParam q "workers" = "" → db.workers = 10) ∧
      (∀ v, goAtoi (getParam q "workers") = some v → db.workers = v)) ∧
    (getParam q "workers" ≠ "" → goAtoi (getParam q "workers") = none →
      ∃ e, NewElasticsearchV7Database env q = Except.error e) := by
  constructor
  · intro db hdb
    exact parseWorkers_ok (newDb_ok_inv env q db hdb).1
  · intro h1 h2
    cases hres : NewElasticsearchV7Database env q with
    | ok db =>
      have hw := (newDb_ok_inv env q db hres).1
      rw [parseWorkers_err h1 h2] at hw
      exact absurd hw (by simp)
    | error e => exact ⟨e, rfl⟩

/-- Witness for C3 (amended): omission gives 10 and `workers=ten` fails. -/
theorem c3_workers_witness :
    (∃ db, NewElasticsearchV7Database {} [] = Except.ok db ∧ db.workers = 10) ∧
    (∃ e, NewElasticsearchV7Database {} [("workers", "ten")] = Except.error e) := by
  constructor
  · exact ⟨_, rfl, ((c3_workers {} []).1 _ rfl).1 rfl⟩
  · exact (c3_workers {} [("workers", "ten")]).2 (by decide) (by decide)

/-! ### C4 -/

/-- C4: every client produced at construction is configured to retry
exactly on the statuses 503, 502, 504 and 429, with the bounded retry
cap 5; and the installed backoff callback returns the initial interval
at attempt counter 1 (resetting the shared state at the start of each
new logical request) while every call advances the state geometrically —
the next stored delay is 3/2 of the one just returned, capped at the
maximum interval — so the inter-attempt delay grows exponentially within
one logical request. -/
theorem c4_retry_policy (env : ExtEnv) (q : Params) (db : ElasticsearchV7Database)
    (h : NewElasticsearchV7Database env q = Except.ok db) :
    (∀ s, s ∈ db.client.retryOnStatus ↔ s ∈ ([503, 502, 504, 429] : List Nat)) ∧
    db.client.maxRetries = 5 ∧
    (∀ b : ExponentialBackOff, (retryBackoff b 1).1 = b.initialInterval) ∧
    (∀ (b : ExponentialBackOff) (i : Nat),
      ((retryBackoff b i).2).currentInterval =
        min ((retryBackoff b i).1 * 3 / 2) b.maxInterval) ∧
    (∀ (b : ExponentialBackOff) (i : Nat), i ≠ 1 →
      (retryBackoff b i).1 = b.currentInterval) := by
  obtain ⟨-, -, -, hstat, hmax, -, -⟩ := newDb_ok_inv env q db h
  refine ⟨?_, hmax, ?_, ?_, ?_⟩
  · intro s
    rw [hstat]
    simp only [List.mem_cons, List.not_mem_nil, or_false]
    tauto
  · intro b
    simp [retryBackoff, ExponentialBackOff.reset, ExponentialBackOff.nextBackOff]
  · intro b i
    by_cases hi : i = 1 <;>
      simp [retryBackoff, hi, ExponentialBackOff.reset, ExponentialBackOff.nextBackOff]
  · intro b i hi
    simp [retryBackoff, hi, ExponentialBackOff.nextBackOff]

/-- Witness for C4 on a concrete handle and backoff state. -/
theorem c4_retry_policy_witness :
    ∃ db, NewElasticsearchV7Database {} [] = Except.ok db ∧
      ((503 : Nat) ∈ db.client.retryOnStatus ↔
        (503 : Nat) ∈ ([503, 502, 504, 429] : List Nat)) ∧
      db.client.maxRetries = 5 ∧
      (retryBackoff ⟨500, 60000, 7000⟩ 1).1 = 500 ∧
      (retryBackoff ⟨500, 60000, 7000⟩ 2).1 = 7000 := by
  refine ⟨_, rfl, ?_, ?_, ?_, ?_⟩
  · exact (c4_retry_policy {} [] _ rfl).1 503
  · exact (c4_retry_policy {} [] _ rfl).2.1
  · exact (c4_retry_policy {} [] _ rfl).2.2.1 ⟨500, 60000, 7000⟩
  · exact (c4_retry_policy {} [] _ rfl).2.2.2.2 ⟨500, 60000, 7000⟩ 2 (by decide)

/-! ### C5 -/

/-- C5: for every row processed during ingestion, the submitted bulk
item carries the JSON serialization of exactly the three fields `id`
(the row's id), `label` (the row's label) and `source` (the source
record's label); its action is the upsert-by-id action `"index"` and its
document key is the row's id, so two submissions with the same
identifier target the same backend document. -/
theorem c5_document_shape (srcLabel : String) (row : Row) :
    (bulkItemForRow srcLabel row).action = "index" ∧
    (bulkItemForRow srcLabel row).documentID = getParam row "id" ∧
    (bulkItemForRow srcLabel row).body =
      jsonObject
        [("id", getParam row "id"), ("label", getParam row "label"),
         ("source", srcLabel)] ∧
    (∀ (srcLabel2 : String) (row2 : Row), getParam row "id" = getParam row2 "id" →
      (bulkItemForRow srcLabel row).documentID =
        (bulkItemForRow srcLabel2 row2).documentID) := by
  refine ⟨rfl, rfl, rfl, ?_⟩
  intro srcLabel2 row2 hid
  simpa [bulkItemForRow] using hid

/-- Witness for C5 on concrete rows sharing an identifier. -/
theorem c5_document_shape_witness :
    (bulkItemForRow "lcsh" [("id", "x1"), ("label", "A")]).action = "index" ∧
    (bulkItemForRow "lcsh" [("id", "x1"), ("label", "A")]).documentID =
      (bulkItemForRow "lcnaf" [("id", "x1"), ("label", "B")]).documentID :=
  ⟨(c5_document_shape "lcsh" [("id", "x1"), ("label", "A")]).1,
   (c5_document_shape "lcsh" [("id", "x1"), ("label", "A")]).2.2.2 "lcnaf"
     [("id", "x1"), ("label", "B")] rfl⟩

/-! ### C6 -/

/-- C6: the row callback returns no error whatever the outcome of the
scheduling call; a rejected submission is merely logged (with the row's
id); a per-document failure handler produces a log line containing the
document identifier and, being a void handler, cannot return an error;
and the error result of the enclosing `Index` call does not depend on
the per-document failure logs at all. -/
theorem c6_per_document_failures_not_escalated :
    (∀ srcLabel addErr row, (indexSourceRowCb srcLabel addErr row).result = none) ∧
    (∀ srcLabel e row, (indexSourceRowCb srcLabel (some e) row).logs =
      ["Failed to schedule " ++ getParam row "id" ++ ", " ++ e]) ∧
    (∀ doc_id err errType errReason, ∃ pre post,
      onFailureLog doc_id err errType errReason = pre ++ (doc_id ++ post)) ∧
    (∀ createErr sources logs1 logs2 closeErr stats,
      (indexCall createErr sources logs1 closeErr stats).2 =
        (indexCall createErr sources logs2 closeErr stats).2) := by
  refine ⟨?_, ?_, ?_, ?_⟩
  · intro srcLabel addErr row
    cases addErr <;> rfl
  · intro srcLabel e row
    rfl
  · intro doc_id err errType errReason
    cases err with
    | some e =>
      exact ⟨"ERROR: Failed to index ", ", " ++ e, by
        simp [onFailureLog, String.append_assoc]⟩
    | none =>
      exact ⟨"ERROR: Failed to index ", ", " ++ errType ++ ": " ++ errReason, by
        simp [onFailureLog, String.append_assoc]⟩
  · intro createErr sources logs1 logs2 closeErr stats
    cases createErr with
    | some e => rfl
    | none =>
      cases hfs : firstSourceErr sources with
      | some le => simp [indexCall, hfs]
      | none => cases closeErr <;> simp [indexCall, hfs]

/-! ### C7 -/

/-- C7 counterexample: a run where every source succeeds and the
close/flush step fails returns the close failure, but the logger output
is empty — no statistics line is logged before the call returns (the
source prints statistics only after a successful close). -/
theorem c7_close_stats_counterexample :
    indexCall none [("lcsh", none)] [] (some "connection reset") "FlushedDocs:7" =
      ([], some ("Failed to close indexer, " ++ "connection reset")) := by
  rfl

/-- C7 (amended): when the close/flush step of an `Index` call fails
after the sources were driven successfully, the call returns that
failure as its error, but the statistics line is NOT logged — the logger
output is exactly whatever the per-document handlers had already
written; statistics are logged exactly when the close succeeds. -/
theorem c7_close_failure_behavior (sources : List (String × Option String))
    (docLogs : List String) (e stats : String)
    (hs : firstSourceErr sources = none) :
    indexCall none sources docLogs (some e) stats =
      (docLogs, some ("Failed to close indexer, " ++ e)) ∧
    indexCall none sources docLogs none stats =
      (docLogs ++ ["Stats " ++ stats], none) := by
  constructor <;> simp [indexCall, hs]

/-- Witness for C7 (amended) on a concrete run. -/
theorem c7_close_failure_behavior_witness :
    indexCall none [("lcsh", none)] ["doclog"] (some "boom") "S" =
      (["doclog"], some ("Failed to close indexer, " ++ "boom")) ∧
    indexCall none [("lcsh", none)] ["doclog"] none "S" =
      (["doclog"] ++ ["Stats " ++ "S"], none) :=
  c7_close_failure_behavior [("lcsh", none)] ["doclog"] "boom" "S" rfl

/-! ### C8 -/

/-- The request's `Size` field is the page size in both branches of the
offset attachment. -/
theorem buildSearchRequest_size (db : ElasticsearchV7Database) (q : String)
    (size page : Int) : (buildSearchRequest db q size page).size = size := by
  simp only [buildSearchRequest]
  split <;> rfl

/-- The request's `From` field is attached exactly when the page is
greater than 1, carrying the wrapping-arithmetic product. -/
theorem buildSearchRequest_fromOff (db : ElasticsearchV7Database) (q : String)
    (size page : Int) : (buildSearchRequest db q size page).fromOff =
      if page > 1 then some (wrap64 (wrap64 (page - 1) * size)) else none := by
  simp only [buildSearchRequest]
  split <;> rfl

/-- Reducing to 64 bits is the identity on the int64 range. -/
theorem wrap64_eq_self {n : Int} (h1 : -2 ^ 63 ≤ n) (h2 : n ≤ 2 ^ 63 - 1) :
    wrap64 n = n := by
  unfold wrap64
  rw [Int.emod_eq_of_lt (by omega) (by omega)]
  omega

/-- The request's `Body` field is the mode-dependent query body in both
branches of the offset attachment. -/
theorem buildSearchRequest_body (db : ElasticsearchV7Database) (q : String)
    (size page : Int) :
    (buildSearchRequest db q size page).body = queryBody db.query_by q := by
  simp only [buildSearchRequest]
  split <;> rfl

/-- C8 counterexample: at the in-range int64 page request
page = 2^32 + 1, size = 2^32, the exact offset (page - 1) * size is
2^64, but the source's wrapping `int` multiplication attaches offset 0 —
not the exact product the claim asserts for every page N > 1. -/
theorem c8_offset_counterexample :
    ((2 ^ 32 + 1 : Int) - 1) * 2 ^ 32 = 2 ^ 64 ∧
    (buildSearchRequest (sampleDb "label") "q" (2 ^ 32) (2 ^ 32 + 1)).fromOff =
      some 0 ∧
    some (0 : Int) ≠ some ((2 ^ 64 : Int)) := by
  refine ⟨by norm_num, ?_, by norm_num⟩
  rw [buildSearchRequest_fromOff, if_pos (by norm_num)]
  norm_num [wrap64]

/-- C8 (amended): the backend request's result-size limit is exactly the
requested page size; a request for page 1 attaches no skip offset; and a
request for page N > 1 attaches the offset (N - 1) * S as computed by
Go's wrapping 64-bit integer arithmetic — which coincides with the exact
product (N - 1) * S whenever that product lies within the int64 range
(in particular for every realistic page request). -/
theorem c8_pagination_request (db : ElasticsearchV7Database) (q : String)
    (size page : Int) :
    (buildSearchRequest db q size page).size = size ∧
    (page = 1 → (buildSearchRequest db q size page).fromOff = none) ∧
    (page > 1 → (buildSearchRequest db q size page).fromOff =
      some (wrap64 (wrap64 (page - 1) * size))) ∧
    (page > 1 → page ≤ 2 ^ 63 - 1 → -2 ^ 63 ≤ (page - 1) * size →
      (page - 1) * size ≤ 2 ^ 63 - 1 →
      (buildSearchRequest db q size page).fromOff = some ((page - 1) * size)) := by
  refine ⟨buildSearchRequest_size db q size page, fun h1 => ?_, fun h1 => ?_,
    fun h1 h2 h3 h4 => ?_⟩
  · rw [buildSearchRequest_fromOff, if_neg (by omega)]
  · rw [buildSearchRequest_fromOff, if_pos h1]
  · rw [buildSearchRequest_fromOff, if_pos h1,
      @wrap64_eq_self (page - 1) (by omega) (by omega), wrap64_eq_self h3 h4]

/-- Witness for C8 (amended) at page 1 and page 4 with page size 10,
where the product is in range and the exact offset 30 is attached. -/
theorem c8_pagination_request_witness :
    (buildSearchRequest (sampleDb "label") "q" 10 1).fromOff = none ∧
    (buildSearchRequest (sampleDb "label") "q" 10 4).size = 10 ∧
    (buildSearchRequest (sampleDb "label") "q" 10 4).fromOff = some 30 := by
  refine ⟨?_, ?_, ?_⟩
  · exact (c8_pagination_request (sampleDb "label") "q" 10 1).2.1 rfl
  · exact (c8_pagination_request (sampleDb "label") "q" 10 4).1
  · have := (c8_pagination_request (sampleDb "label") "q" 10 4).2.2.2
      (by norm_num) (by norm_num) (by norm_num) (by norm_num)
    simpa using this

/-! ### C9 -/

/-- C9: the request body is a phrase match of the query string against
the full-text `search` field when the handle's mode is `text`, and a
phrase match against the untokenized `label.keyword` field in every
other case; in both modes the query string is interpolated verbatim
between the fixed body fragments, with no escaping or sanitization. -/
theorem c9_query_body_construction (db : ElasticsearchV7Database) (q : String)
    (perPage page : Int) :
    (buildSearchRequest db q perPage page).body = queryBody db.query_by q ∧
    (db.query_by = "text" →
      (buildSearchRequest db q perPage page).body = textQueryPre ++ q ++ querySuf) ∧
    (db.query_by ≠ "text" →
      (buildSearchRequest db q perPage page).body = labelQueryPre ++ q ++ querySuf) := by
  have hbody := buildSearchRequest_body db q perPage page
  refine ⟨hbody, fun ht => ?_, fun ht => ?_⟩
  · rw [hbody]
    simp [queryBody, ht]
  · rw [hbody]
    simp [queryBody, ht]

/-- Witness for C9 in both modes on a concrete query string. -/
theorem c9_query_body_construction_witness :
    (buildSearchRequest (sampleDb "text") "hello world" 10 1).body =
      textQueryPre ++ "hello world" ++ querySuf ∧
    (buildSearchRequest (sampleDb "label") "hello world" 10 1).body =
      labelQueryPre ++ "hello world" ++ querySuf :=
  ⟨(c9_query_body_construction (sampleDb "text") "hello world" 10 1).2.1 rfl,
   (c9_query_body_construction (sampleDb "label") "hello world" 10 1).2.2 (by decide)⟩

/-! ### C10 -/

/-- C10: the normalized result sequence has exactly one entry per
decoded hit, in response order — entry i is the generic result carried
by hit i — and the pagination metadata is built from exactly the
original page request together with the response's total-count value. -/
theorem c10_response_normalization {α : Type} (perPage page : Int)
    (rsp : QueryResponse α) :
    (queryNormalize perPage page rsp).1.length = rsp.hitResults.length ∧
    (∀ (i : Nat) (h1 : i < (queryNormalize perPage page rsp).1.length)
        (h2 : i < rsp.hitResults.length),
      (queryNormalize perPage page rsp).1.get ⟨i, h1⟩ =
        (rsp.hitResults.get ⟨i, h2⟩).result) ∧
    (queryNormalize perPage page rsp).2 = ((perPage, page), rsp.totalValue) := by
  refine ⟨by simp [queryNormalize], ?_, rfl⟩
  intro i h1 h2
  simp [queryNormalize, List.get_eq_getElem, List.getElem_map]

/-- Witness for C10 on a concrete two-hit response. -/
theorem c10_response_normalization_witness :
    (queryNormalize 10 4 (⟨37, [⟨5⟩, ⟨7⟩]⟩ : QueryResponse Nat)).1.length = 2 ∧
    (queryNormalize 10 4 (⟨37, [⟨5⟩, ⟨7⟩]⟩ : QueryResponse Nat)).1.get
      ⟨1, by decide⟩ = 7 ∧
    (queryNormalize 10 4 (⟨37, [⟨5⟩, ⟨7⟩]⟩ : QueryResponse Nat)).2 = ((10, 4), 37) := by
  refine ⟨?_, ?_, ?_⟩
  · exact (c10_response_normalization 10 4 (⟨37, [⟨5⟩, ⟨7⟩]⟩ : QueryResponse Nat)).1
  · exact (c10_response_normalization 10 4
      (⟨37, [⟨5⟩, ⟨7⟩]⟩ : QueryResponse Nat)).2.1 1 (by decide) (by decide)
  · exact (c10_response_normalization 10 4 (⟨37, [⟨5⟩, ⟨7⟩]⟩ : QueryResponse Nat)).2.2
